import Mathlib

/-!
Verification development for the `bouabid_vu_2026` conversion scripts of the
`howe-lab-to-nwb` repository.

The three orchestration scripts are embedded shallowly:

* `single_wavelength_session_to_nwb`
  (`bouabid_vu_2026_convert_single_wavelength_session.py`),
* `dual_wavelength_session_to_nwb`
  (`bouabid_vu_2026_convert_dual_wavelength_session.py`),
* `convert_all_dual_wavelength_sessions`
  (`bouabid_vu_2026_convert_all_dual_wavelength_sessions.py`).

Collaborator libraries (pymatreader, neuroconv, pandas, nwbinspector) are
modelled as an environment mapping file paths to their already-parsed
contents, and the NWB file handle is modelled as the list of per-channel
stream configurations that were added to it.  Each model function also
returns the ordered list of externally visible effects (file reads, handle
creation/extension, file writes) it performs, so that statements about
"fails before X happens" can be made about the effect trace.
-/

set_option maxHeartbeats 1000000
set_option maxRecDepth 8192

namespace HoweLab

/-! ## Shared primitives -/

/-- `np.arange a b` for integer bounds and unit step: the integers
`a, a+1, …, b-1`, empty when `b ≤ a`. -/
def arange (a b : ℤ) : List ℤ :=
  List.map (fun i : ℕ => a + (i : ℤ)) (List.range (b - a).toNat)

/-- Association-list field access, standing for Python dict lookup
(`none` corresponds to a raised `KeyError`). -/
def lookupField {α : Type} (l : List (String × α)) (k : String) : Option α :=
  (l.find? (fun p => p.1 == k)).map (fun p => p.2)

theorem mem_arange {a b x : ℤ} : x ∈ arange a b ↔ a ≤ x ∧ x < b := by
  unfold arange
  simp only [List.mem_map, List.mem_range]
  constructor
  · rintro ⟨i, hi, rfl⟩
    omega
  · rintro ⟨h1, h2⟩
    exact ⟨(x - a).toNat, by omega, by omega⟩

theorem length_arange (a b : ℤ) : (arange a b).length = (b - a).toNat := by
  unfold arange
  rw [List.length_map, List.length_range]

/-! ## Data model

The processed-data `.mat` struct is accessed by field name; the fields the
scripts read are two-element one-based `[start, end]` index vectors and
behavior sub-structs carrying a `timestamp` array. -/

structure BehaviorData where
  timestamp : List ℚ
  deriving DecidableEq

structure ProcessedData where
  indexFields : List (String × (ℤ × ℤ))
  behaviorFields : List (String × BehaviorData)
  deriving DecidableEq

/-- One row of the per-subject fiber table; only the inclusion flag is
consumed by the scripts under study. -/
structure FiberEntry where
  included : Bool
  deriving DecidableEq

/-- One row of the "Mice" sheet of the session table. -/
structure SubjectRow where
  subjectId : String
  dateOfBirth : String
  deriving DecidableEq

/-- The collaborator world: what `read_mat` and `get_fiber_locations`
return for each path. -/
structure Env where
  processedData : List (String × ProcessedData)
  fiberTables : List (String × List FiberEntry)
  deriving DecidableEq

/-- `pymatreader.read_mat` on a path, as provided by the environment. -/
def read_mat (env : Env) (path : String) : Option ProcessedData :=
  lookupField env.processedData path

/-- `get_fiber_locations` on a path, as provided by the environment. -/
def get_fiber_locations (env : Env) (path : String) : Option (List FiberEntry) :=
  lookupField env.fiberTables path

/-- The fixed wavelength-to-series-name lookup of
`single_wavelength_session_to_nwb` (lines 171-176); `none` corresponds to
the `KeyError` a Python dict raises on a missing key. -/
def excitation_wavelength_to_photon_series_name (nm : ℤ) : Option String :=
  if nm = 470 then some "Green"
  else if nm = 405 then some "GreenIsosbestic"
  else if nm = 415 then some "GreenIsosbestic"
  else if nm = 570 then some "Red"
  else none

/-! ## Single-wavelength session assembler

Embedding of `single_wavelength_session_to_nwb`
(`bouabid_vu_2026_convert_single_wavelength_session.py`, lines 18-210).
The nested `source_data` / `conversion_options` dictionaries are modelled by
records holding their final contents; the metadata assembly (lines 137-169
and 180-195) only shapes descriptive metadata and is abstracted away, except
for the wavelength-to-series-name lookup (line 178), which is the one step
of it that can fail. -/

/-- `source_data["Imaging"]`: `sampling_frequency` is added only when the
argument is not `None` (line 91), hence the `Option`. -/
structure ImagingSource where
  filePath : String
  frameIndices : List ℤ
  samplingFrequency : Option ℚ
  deriving DecidableEq

/-- `source_data["FiberPhotometry"]` (lines 99-108). -/
structure FiberPhotometrySource where
  filePath : String
  dataField : String
  ttlFilePath : String
  ttlStreamName : String
  deriving DecidableEq

/-- `source_data["Segmentation"]` (lines 120-125); here `sampling_frequency`
is passed through unconditionally, so the `Option` value is the argument
itself (possibly `None`). -/
structure SegmentationSource where
  filePath : String
  dataField : String
  samplingFrequency : Option ℚ
  acceptedList : List ℕ
  deriving DecidableEq

/-- `source_data["Behavior"]` (lines 131-133), present only when a behavior
field was supplied. -/
structure BehaviorSource where
  filePath : String
  dataField : String
  deriving DecidableEq

structure SourceData where
  imaging : ImagingSource
  fiberPhotometry : FiberPhotometrySource
  segmentation : SegmentationSource
  behavior : Option BehaviorSource
  deriving DecidableEq

structure ImagingOptions where
  stubTest : Bool
  photonSeriesType : String
  photonSeriesIndex : ℕ
  deriving DecidableEq

structure FiberPhotometryOptions where
  stubTest : Bool
  fiberLocationsMetadata : List FiberEntry
  deriving DecidableEq

/-- Final contents of `conversion_options`; the `FiberPhotometry` entry is
its line-115 value, which overwrites the line-109 one. `behaviorStubTest`
is present exactly when the Behavior stream was added. -/
structure ConversionOptions where
  imaging : ImagingOptions
  fiberPhotometry : FiberPhotometryOptions
  segmentationStubTest : Bool
  behaviorStubTest : Option Bool
  deriving DecidableEq

/-- One converter invocation recorded on an NWB file handle: the stream
source configurations and options it contributed. -/
structure ChannelEntry where
  sourceData : SourceData
  conversionOptions : ConversionOptions
  alignedStartingTime : Option ℚ
  deriving DecidableEq

/-- An in-memory NWB file handle, modelled as the list of converter
invocations that have landed in it. -/
structure NWBHandle where
  channels : List ChannelEntry
  deriving DecidableEq

/-- `converter.create_nwbfile` (line 198). -/
def createNwbfile (sd : SourceData) (co : ConversionOptions) : NWBHandle :=
  ⟨[⟨sd, co, none⟩]⟩

/-- `converter.add_to_nwbfile` (lines 200-205). -/
def addToNwbfile (h : NWBHandle) (sd : SourceData) (co : ConversionOptions)
    (alignedStartingTime : Option ℚ) : NWBHandle :=
  ⟨h.channels ++ [⟨sd, co, alignedStartingTime⟩]⟩

/-- Arguments of `single_wavelength_session_to_nwb`, with the Python
defaults (lines 18-36). -/
structure SingleArgs where
  rawImagingFilePath : String
  processedDataFilePath : String
  fiberPhotometryField : String
  indexField : String
  fiberLocationsFilePath : String
  excitationWavelengthInNm : ℤ
  indicator : String
  ttlFilePath : String
  ttlStreamName : String
  behaviorField : Option String := none
  frameIndices : Option (List ℤ) := none
  nwbfilePath : Option String := none
  nwbfile : Option NWBHandle := none
  samplingFrequency : Option ℚ := some (-1)
  subjectMetadata : Option SubjectRow := none
  alignedStartingTime : Option ℚ := none
  excitationMode : String := "single-wavelength"
  stubTest : Bool := false
  deriving DecidableEq

/-- Externally visible effects of one assembler call, in program order. -/
inductive Effect where
  | readMat (path : String)
  | readFiberTable (path : String)
  | constructConverter
  | createHandle
  | extendHandle
  | writeNwb (path : String)
  deriving DecidableEq

inductive SingleError where
  | readError (path : String)
  | keyError (field : String)
  | wavelengthKeyError (nm : ℤ)
  deriving DecidableEq

structure SingleOutcome where
  sourceData : SourceData
  conversionOptions : ConversionOptions
  nameSuffix : String
  nwbfile : NWBHandle
  written : Option String
  deriving DecidableEq

/-- `accepted_list` (line 119): positions of the fiber entries whose
inclusion flag is set. -/
def accepted_roi_indices (fibers : List FiberEntry) : List ℕ :=
  List.map (fun p => p.1) (List.filter (fun p => p.2.included) fibers.enum)

/-- Final contents of `source_data` (lines 82-134). -/
def buildSourceData (a : SingleArgs) (frame_indices : List ℤ)
    (fibers : List FiberEntry) : SourceData :=
  { imaging :=
      { filePath := a.rawImagingFilePath
        frameIndices := frame_indices
        samplingFrequency := a.samplingFrequency }
    fiberPhotometry :=
      { filePath := a.processedDataFilePath
        dataField := a.fiberPhotometryField
        ttlFilePath := a.ttlFilePath
        ttlStreamName := a.ttlStreamName }
    segmentation :=
      { filePath := a.processedDataFilePath
        dataField := a.fiberPhotometryField
        samplingFrequency := a.samplingFrequency
        acceptedList := accepted_roi_indices fibers }
    behavior := a.behaviorField.map
      (fun f => { filePath := a.processedDataFilePath, dataField := f }) }

/-- Final contents of `conversion_options` (lines 94-134). -/
def buildConversionOptions (a : SingleArgs) (fibers : List FiberEntry) :
    ConversionOptions :=
  { imaging :=
      { stubTest := a.stubTest
        photonSeriesType := "OnePhotonSeries"
        photonSeriesIndex := 0 }
    fiberPhotometry :=
      { stubTest := a.stubTest
        fiberLocationsMetadata := fibers }
    segmentationStubTest := a.stubTest
    behaviorStubTest := a.behaviorField.map (fun _ => a.stubTest) }

/-- `single_wavelength_session_to_nwb`. Note lines 86-87 of the source:
the `frame_indices` argument is immediately rebound to the value derived
from the processed-data struct's index field, so the supplied value is
never consulted. -/
def single_wavelength_session_to_nwb (env : Env) (a : SingleArgs) :
    List Effect × Except SingleError SingleOutcome :=
  match read_mat env a.processedDataFilePath with
  | none =>
      ([.readMat a.processedDataFilePath], .error (.readError a.processedDataFilePath))
  | some pd =>
    match lookupField pd.indexFields a.indexField with
    | none =>
        ([.readMat a.processedDataFilePath], .error (.keyError a.indexField))
    | some se =>
      match get_fiber_locations env a.fiberLocationsFilePath with
      | none =>
          ([.readMat a.processedDataFilePath, .readFiberTable a.fiberLocationsFilePath],
           .error (.readError a.fiberLocationsFilePath))
      | some fibers =>
        match excitation_wavelength_to_photon_series_name a.excitationWavelengthInNm with
        | none =>
            ([.readMat a.processedDataFilePath, .readFiberTable a.fiberLocationsFilePath,
              .constructConverter],
             .error (.wavelengthKeyError a.excitationWavelengthInNm))
        | some name_suffix =>
          let source_data := buildSourceData a (arange (se.1 - 1) se.2) fibers
          let conversion_options := buildConversionOptions a fibers
          let (handleEffect, nwbfile) :=
            match a.nwbfile with
            | none => (Effect.createHandle, createNwbfile source_data conversion_options)
            | some h =>
                (Effect.extendHandle,
                 addToNwbfile h source_data conversion_options a.alignedStartingTime)
          let baseEffects := [Effect.readMat a.processedDataFilePath,
                              Effect.readFiberTable a.fiberLocationsFilePath,
                              Effect.constructConverter, handleEffect]
          match a.nwbfilePath with
          | none =>
              (baseEffects,
               .ok ⟨source_data, conversion_options, name_suffix, nwbfile, none⟩)
          | some p =>
              (baseEffects ++ [.writeNwb p],
               .ok ⟨source_data, conversion_options, name_suffix, nwbfile, some p⟩)

/-- The Imaging stream's frame-index window of a successful assembler run. -/
def imagingFrameIndicesOf : Except SingleError SingleOutcome → Option (List ℤ)
  | .ok o => some o.sourceData.imaging.frameIndices
  | .error _ => none

def exceptIsOk {ε α : Type} : Except ε α → Bool
  | .ok _ => true
  | .error _ => false

/-! ## Dual-wavelength session assembler

Embedding of `dual_wavelength_session_to_nwb`
(`bouabid_vu_2026_convert_dual_wavelength_session.py`, lines 12-123). -/

/-- Arguments of `dual_wavelength_session_to_nwb`, with the Python defaults
(lines 12-27); the parallel per-channel parameters are Python lists indexed
at 0 and 1. -/
structure DualArgs where
  rawImagingFilePaths : List String
  processedDataFilePath : String
  fiberPhotometryFields : List String
  behaviorFields : List String
  indexFields : List String
  fiberLocationsFilePath : String
  excitationWavelengthsInNm : List ℤ
  indicators : List String
  ttlFilePath : String
  ttlStreamNames : List String
  nwbfilePath : String
  samplingFrequency : Option ℚ := some (-1)
  subjectMetadata : Option SubjectRow := none
  stubTest : Bool := false
  deriving DecidableEq

/-- The values one channel's `single_wavelength_session_to_nwb` call is given
(lines 75-81 and the list indexing of lines 84-123); `none` for any of the
lookups corresponds to a `KeyError`/`IndexError` raised there. -/
structure ChannelExtract where
  raw : String
  fp : String
  bf : String
  ifield : String
  wl : ℤ
  ind : String
  ttl : String
  fi : List ℤ
  t : ℚ
  deriving DecidableEq

/-- Channel `i`'s share of lines 75-81 and of the indexing in the calls: in
particular the frame indices are
`list(np.arange(processed_data[index_fields[i]][0]-1, processed_data[index_fields[i]][1]))`
and the starting time is `processed_data[behavior_fields[i]]["timestamp"][0]`. -/
def channelExtract (pd : ProcessedData) (a : DualArgs) (i : ℕ) : Option ChannelExtract := do
  let bf ← a.behaviorFields.get? i
  let bd ← lookupField pd.behaviorFields bf
  let ifield ← a.indexFields.get? i
  let idx ← lookupField pd.indexFields ifield
  let t ← bd.timestamp.head?
  let raw ← a.rawImagingFilePaths.get? i
  let fp ← a.fiberPhotometryFields.get? i
  let wl ← a.excitationWavelengthsInNm.get? i
  let ind ← a.indicators.get? i
  let ttl ← a.ttlStreamNames.get? i
  return { raw, fp, bf, ifield, wl, ind, ttl, fi := arange (idx.1 - 1) idx.2, t }

/-- Both channels' extracted values. -/
structure DualExtract where
  ch1 : ChannelExtract
  ch2 : ChannelExtract
  deriving DecidableEq

/-- Lines 75-81 for both channels. -/
def dualExtract (pd : ProcessedData) (a : DualArgs) : Option DualExtract := do
  let ch1 ← channelExtract pd a 0
  let ch2 ← channelExtract pd a 1
  return { ch1, ch2 }

/-- The channel-1 call (lines 84-101): fresh file, behavior field included,
no persistence path. -/
def dualChannel1Args (a : DualArgs) (x : DualExtract) : SingleArgs :=
  { rawImagingFilePath := x.ch1.raw
    processedDataFilePath := a.processedDataFilePath
    fiberPhotometryField := x.ch1.fp
    indexField := x.ch1.ifield
    fiberLocationsFilePath := a.fiberLocationsFilePath
    excitationWavelengthInNm := x.ch1.wl
    indicator := x.ch1.ind
    ttlFilePath := a.ttlFilePath
    ttlStreamName := x.ch1.ttl
    behaviorField := some x.ch1.bf
    frameIndices := some x.ch1.fi
    alignedStartingTime := some x.ch1.t
    samplingFrequency := a.samplingFrequency
    subjectMetadata := a.subjectMetadata
    excitationMode := "dual-wavelength"
    stubTest := a.stubTest }

/-- The channel-2 call (lines 105-123): extends the channel-1 handle and
writes the file; the `behavior_field` keyword is omitted ("don't include
behavior_field because we only need behavior from one channel"). -/
def dualChannel2Args (a : DualArgs) (x : DualExtract) (nwbfile : NWBHandle) : SingleArgs :=
  { rawImagingFilePath := x.ch2.raw
    processedDataFilePath := a.processedDataFilePath
    fiberPhotometryField := x.ch2.fp
    indexField := x.ch2.ifield
    fiberLocationsFilePath := a.fiberLocationsFilePath
    excitationWavelengthInNm := x.ch2.wl
    indicator := x.ch2.ind
    ttlFilePath := a.ttlFilePath
    ttlStreamName := x.ch2.ttl
    frameIndices := some x.ch2.fi
    alignedStartingTime := some x.ch2.t
    samplingFrequency := a.samplingFrequency
    subjectMetadata := a.subjectMetadata
    excitationMode := "dual-wavelength"
    nwbfile := some nwbfile
    nwbfilePath := some a.nwbfilePath
    stubTest := a.stubTest }

inductive DualError where
  | readError (path : String)
  | keyError
  | singleError (e : SingleError)
  deriving DecidableEq

structure DualOutcome where
  nwbfile : NWBHandle
  written : Option String
  deriving DecidableEq

/-- `dual_wavelength_session_to_nwb`. -/
def dual_wavelength_session_to_nwb (env : Env) (a : DualArgs) :
    List Effect × Except DualError DualOutcome :=
  match read_mat env a.processedDataFilePath with
  | none =>
      ([.readMat a.processedDataFilePath], .error (.readError a.processedDataFilePath))
  | some processed_data =>
    match dualExtract processed_data a with
    | none => ([.readMat a.processedDataFilePath], .error .keyError)
    | some x =>
      match single_wavelength_session_to_nwb env (dualChannel1Args a x) with
      | (eff1, .error e) =>
          (.readMat a.processedDataFilePath :: eff1, .error (.singleError e))
      | (eff1, .ok o1) =>
        match single_wavelength_session_to_nwb env (dualChannel2Args a x o1.nwbfile) with
        | (eff2, .error e) =>
            (.readMat a.processedDataFilePath :: (eff1 ++ eff2), .error (.singleError e))
        | (eff2, .ok o2) =>
            (.readMat a.processedDataFilePath :: (eff1 ++ eff2), .ok ⟨o2.nwbfile, o2.written⟩)

/-! ## Batch driver

Embedding of `convert_all_dual_wavelength_sessions`
(`bouabid_vu_2026_convert_all_dual_wavelength_sessions.py`, lines 12-121).
The output directory's state is modelled as the list of file paths that
exist, and each run returns the ordered list of conversion/write events it
performed alongside its `Except` outcome. -/

/-- One row of the "Sessions" sheet of the session table, with the columns
the driver reads (lines 75-83). -/
structure SessionRow where
  mouse : String
  experimentDirectory : String
  rawImagingFileGreen : String
  rawImagingFileRed : String
  processedDataFile : String
  photometryFieldGreen : String
  photometryFieldRed : String
  behaviorFieldGreen : String
  behaviorFieldRed : String
  indexFieldGreen : String
  indexFieldRed : String
  wavelengthGreen : ℤ
  wavelengthRed : ℤ
  sensorGreen : String
  sensorRed : String
  rawBehaviorFile : String
  deriving DecidableEq

/-- Modelled from the spec: `_get_subject_metadata_from_dataframe` is
imported from `utils/_data_utils.py`, which is not among the included
sources; per the repository specification (Subject Metadata Lookup) it
returns the subject table row for the given identifier and fails with a
`LookupError` when the identifier is absent from the table. -/
def get_subject_metadata_from_dataframe (subject_id : String)
    (data_table : List SubjectRow) : Option SubjectRow :=
  data_table.find? (fun r => r.subjectId == subject_id)

/-- Modelled from the spec: `_get_indicator_from_aav_string` is imported
from `utils/_data_utils.py`, which is not among the included sources; the
specification only says the per-channel indicator is derived from the
"Relevant Injected Sensor" string, so it is modelled as an uninterpreted
total map (the identity); no claim depends on its value. -/
def get_indicator_from_aav_string (s : String) : String := s

/-- `str(subject_id).replace("-", "")` (line 71). -/
def removeHyphens (s : String) : String :=
  String.mk (s.toList.filter (fun c => c != '-'))

/-- `pathlib` path joining (`/`). -/
def pjoin (a b : String) : String := a ++ "/" ++ b

/-- Lines 85-87: `{subject_id}_{exp_dir}.nwb`, with the `stub-` prefix in
stub mode. -/
def outputFileName (stub_test : Bool) (subject_id exp_dir : String) : String :=
  if stub_test then "stub-" ++ subject_id ++ "_" ++ exp_dir ++ ".nwb"
  else subject_id ++ "_" ++ exp_dir ++ ".nwb"

/-- The output file path the driver derives for a session group. -/
def outputPath (nwbfile_folder_path : String) (stub_test : Bool) (r : SessionRow) : String :=
  pjoin nwbfile_folder_path (outputFileName stub_test (removeHyphens r.mouse) r.experimentDirectory)

/-- Line 111: `{subject_id}-{exp_dir}_nwbinspector_result.txt`. -/
def qaReportPath (nwbfile_folder_path : String) (r : SessionRow) : String :=
  pjoin nwbfile_folder_path
    (removeHyphens r.mouse ++ "-" ++ r.experimentDirectory ++ "_nwbinspector_result.txt")

/-- The existing files of the output directory. -/
abbrev FS := List String

inductive DriverError where
  | configurationError (subjectIds : List String)
  | subjectLookupError (subjectId : String)
  | conversionError (e : DualError)
  deriving DecidableEq

inductive BatchEvent where
  | dualCall (args : DualArgs)
  | writeNwb (path : String)
  | writeReport (path : String)
  deriving DecidableEq

/-- The inspector/report step (lines 110-119): the report is written only
when no file exists at the report path. -/
def reportStep (fs : FS) (report_path : String) : FS × List BatchEvent :=
  if report_path ∈ fs then (fs, [])
  else (report_path :: fs, [.writeReport report_path])

/-- The `dual_wavelength_session_to_nwb` call of lines 94-108, with the
argument values the driver derives from the group's first table row. -/
def groupDualArgs (folder_path : String) (stub_test : Bool)
    (subject_metadata : SubjectRow) (nwbfile_path : String) (r : SessionRow) : DualArgs :=
  let subject_id := removeHyphens r.mouse
  let subject_folder_path := pjoin folder_path subject_id
  let session_folder_path := pjoin subject_folder_path r.experimentDirectory
  { rawImagingFilePaths := [pjoin (pjoin session_folder_path "raw") r.rawImagingFileGreen,
                            pjoin (pjoin session_folder_path "raw") r.rawImagingFileRed]
    processedDataFilePath := pjoin session_folder_path r.processedDataFile
    fiberPhotometryFields := [r.photometryFieldGreen, r.photometryFieldRed]
    behaviorFields := [r.behaviorFieldGreen, r.behaviorFieldRed]
    indexFields := [r.indexFieldGreen, r.indexFieldRed]
    fiberLocationsFilePath := pjoin subject_folder_path "fiber_table.xlsx"
    excitationWavelengthsInNm := [r.wavelengthGreen, r.wavelengthRed]
    indicators := [get_indicator_from_aav_string r.sensorGreen,
                   get_indicator_from_aav_string r.sensorRed]
    ttlFilePath := pjoin (pjoin session_folder_path "raw") r.rawBehaviorFile
    ttlStreamNames := ["ttlIn1", "ttlIn2"]
    nwbfilePath := nwbfile_path
    samplingFrequency := some 18
    subjectMetadata := some subject_metadata
    stubTest := stub_test }

/-- The body of the per-group loop (lines 68-121): subject-metadata lookup
first, then the skip-if-exists check, then conversion, then the
inspector/report step. -/
def processGroup (env : Env) (subjects_table : List SubjectRow)
    (folder_path nwbfile_folder_path : String) (stub_test overwrite : Bool)
    (r : SessionRow) (fs : FS) : List BatchEvent × Except DriverError FS :=
  match get_subject_metadata_from_dataframe r.mouse subjects_table with
  | none => ([], .error (.subjectLookupError r.mouse))
  | some subject_metadata =>
    let nwbfile_path := outputPath nwbfile_folder_path stub_test r
    if nwbfile_path ∈ fs ∧ overwrite = false then ([], .ok fs)
    else
      let dargs := groupDualArgs folder_path stub_test subject_metadata nwbfile_path r
      match (dual_wavelength_session_to_nwb env dargs).2 with
      | .error e => ([.dualCall dargs], .error (.conversionError e))
      | .ok _ =>
        (.dualCall dargs :: .writeNwb nwbfile_path ::
           (reportStep (nwbfile_path :: fs) (qaReportPath nwbfile_folder_path r)).2,
         .ok (reportStep (nwbfile_path :: fs) (qaReportPath nwbfile_folder_path r)).1)

/-- The sequential loop over session groups; an error aborts the batch. -/
def runGroups (env : Env) (subjects_table : List SubjectRow)
    (folder_path nwbfile_folder_path : String) (stub_test overwrite : Bool) :
    List SessionRow → FS → List BatchEvent × Except DriverError FS
  | [], fs => ([], .ok fs)
  | r :: rest, fs =>
    match processGroup env subjects_table folder_path nwbfile_folder_path
        stub_test overwrite r fs with
    | (evs, .error e) => (evs, .error e)
    | (evs, .ok fs1) =>
      (evs ++ (runGroups env subjects_table folder_path nwbfile_folder_path
                 stub_test overwrite rest fs1).1,
       (runGroups env subjects_table folder_path nwbfile_folder_path
          stub_test overwrite rest fs1).2)

def sessionKey (r : SessionRow) : String × String := (r.mouse, r.experimentDirectory)

/-- The first row of each `(Mouse, Experiment Directory)` group, in order of
first appearance: exactly the rows whose column values the loop consumes
via `table[...].values[0]`.  (pandas `groupby` iterates the groups in
sorted key order; none of the properties proved below depends on the
iteration order of the groups.) -/
def groupFirstsAux : List SessionRow → List (String × String) → List SessionRow
  | [], _ => []
  | r :: rest, seen =>
    if sessionKey r ∈ seen then groupFirstsAux rest seen
    else r :: groupFirstsAux rest (sessionKey r :: seen)

def groupFirsts (rows : List SessionRow) : List SessionRow := groupFirstsAux rows []

/-- `convert_all_dual_wavelength_sessions` (lines 12-121): filter the
session table by the requested subjects, fail when nothing matches (lines
50-52), then process each group sequentially. -/
def convert_all_dual_wavelength_sessions (env : Env) (data_table : List SessionRow)
    (subjects_table : List SubjectRow) (folder_path nwbfile_folder_path : String)
    (subject_ids : List String) (stub_test overwrite : Bool) (fs : FS) :
    List BatchEvent × Except DriverError FS :=
  if (data_table.filter (fun r => subject_ids.contains r.mouse)).isEmpty then
    ([], .error (.configurationError subject_ids))
  else
    runGroups env subjects_table folder_path nwbfile_folder_path stub_test overwrite
      (groupFirsts (data_table.filter (fun r => subject_ids.contains r.mouse))) fs

/-! ## Structural lemmas about the models -/

theorem single_ok_spec (env : Env) (a : SingleArgs) (o : SingleOutcome)
    (h : (single_wavelength_session_to_nwb env a).2 = .ok o) :
    ∃ pd se fibers,
      read_mat env a.processedDataFilePath = some pd ∧
      lookupField pd.indexFields a.indexField = some se ∧
      get_fiber_locations env a.fiberLocationsFilePath = some fibers ∧
      o.sourceData = buildSourceData a (arange (se.1 - 1) se.2) fibers ∧
      o.conversionOptions = buildConversionOptions a fibers ∧
      o.written = a.nwbfilePath ∧
      o.nwbfile = (match a.nwbfile with
        | none => createNwbfile (buildSourceData a (arange (se.1 - 1) se.2) fibers)
            (buildConversionOptions a fibers)
        | some h0 => addToNwbfile h0 (buildSourceData a (arange (se.1 - 1) se.2) fibers)
            (buildConversionOptions a fibers) a.alignedStartingTime) := by
  unfold single_wavelength_session_to_nwb at h
  split at h
  next hpd => simp at h
  next pd hpd =>
  split at h
  next hidx => simp at h
  next se hidx =>
  split at h
  next hfib => simp at h
  next fibers hfib =>
  split at h
  next hw => simp at h
  next ns hw =>
  refine ⟨pd, se, fibers, hpd, hidx, hfib, ?_⟩
  simp only [] at h
  split at h
  next hpath =>
    rw [hpath]
    split at h <;>
      (dsimp only at h
       rw [Except.ok.injEq] at h
       subst h
       exact ⟨rfl, rfl, rfl, rfl⟩)
  next p hpath =>
    rw [hpath]
    split at h <;>
      (dsimp only at h
       rw [Except.ok.injEq] at h
       subst h
       exact ⟨rfl, rfl, rfl, rfl⟩)

theorem dualExtract_channels (pd : ProcessedData) (a : DualArgs) (x : DualExtract)
    (h : dualExtract pd a = some x) :
    channelExtract pd a 0 = some x.ch1 ∧ channelExtract pd a 1 = some x.ch2 := by
  simp only [dualExtract, bind, Option.bind_eq_some, Option.pure_def, Option.some.injEq] at h
  obtain ⟨c1, h1, c2, h2, hx⟩ := h
  subst hx
  exact ⟨h1, h2⟩

theorem excitation_lookup_eq_none (nm : ℤ)
    (h : nm ∉ ([470, 405, 415, 570] : List ℤ)) :
    excitation_wavelength_to_photon_series_name nm = none := by
  simp only [List.mem_cons, List.not_mem_nil, or_false, not_or] at h
  obtain ⟨h1, h2, h3, h4⟩ := h
  simp [excitation_wavelength_to_photon_series_name, h1, h2, h3, h4]

def handleOrWriteEffects (l : List Effect) : List Effect :=
  l.filter (fun e => match e with
    | .createHandle => true
    | .extendHandle => true
    | .writeNwb _ => true
    | _ => false)

theorem single_unknown_wavelength (env : Env) (a : SingleArgs) (pd : ProcessedData)
    (se : ℤ × ℤ) (fibers : List FiberEntry)
    (hpd : read_mat env a.processedDataFilePath = some pd)
    (hidx : lookupField pd.indexFields a.indexField = some se)
    (hfib : get_fiber_locations env a.fiberLocationsFilePath = some fibers)
    (hw : a.excitationWavelengthInNm ∉ ([470, 405, 415, 570] : List ℤ)) :
    single_wavelength_session_to_nwb env a =
      ([.readMat a.processedDataFilePath, .readFiberTable a.fiberLocationsFilePath,
        .constructConverter],
       .error (.wavelengthKeyError a.excitationWavelengthInNm)) := by
  unfold single_wavelength_session_to_nwb
  rw [hpd]
  dsimp only
  rw [hidx]
  dsimp only
  rw [hfib]
  dsimp only
  rw [excitation_lookup_eq_none _ hw]

theorem mem_reportStep (fs : FS) (p q : String) (h : q ∈ fs) : q ∈ (reportStep fs p).1 := by
  unfold reportStep
  split <;> simp [h]

theorem reportStep_superset (fs : FS) (p : String) : ∀ q ∈ fs, q ∈ (reportStep fs p).1 :=
  fun q hq => mem_reportStep fs p q hq

theorem processGroup_ok_spec (env : Env) (st : List SubjectRow) (fp nfp : String)
    (stub ow : Bool) (r : SessionRow) (fs : FS) (evs : List BatchEvent) (fs1 : FS)
    (h : processGroup env st fp nfp stub ow r fs = (evs, .ok fs1)) :
    (∀ p ∈ fs, p ∈ fs1) ∧ outputPath nfp stub r ∈ fs1 ∧
    (get_subject_metadata_from_dataframe r.mouse st).isSome = true := by
  unfold processGroup at h
  split at h
  · simp at h
  next sm hsm =>
    dsimp only at h
    split at h
    next hcond =>
      simp only [Prod.mk.injEq, Except.ok.injEq] at h
      obtain ⟨-, hfs⟩ := h
      subst hfs
      exact ⟨fun p hp => hp, hcond.1, by simp [hsm]⟩
    next hcond =>
      split at h
      · simp at h
      · simp only [Prod.mk.injEq, Except.ok.injEq] at h
        obtain ⟨-, hfs⟩ := h
        subst hfs
        refine ⟨?_, ?_, by simp [hsm]⟩
        · intro p hp
          exact mem_reportStep _ _ _ (List.mem_cons_of_mem _ hp)
        · exact mem_reportStep _ _ _ (List.mem_cons_self _ _)

theorem processGroup_skip (env : Env) (st : List SubjectRow) (fp nfp : String)
    (stub : Bool) (r : SessionRow) (fs : FS)
    (hsm : (get_subject_metadata_from_dataframe r.mouse st).isSome = true)
    (hmem : outputPath nfp stub r ∈ fs) :
    processGroup env st fp nfp stub false r fs = ([], .ok fs) := by
  obtain ⟨m, hm⟩ := Option.isSome_iff_exists.mp hsm
  unfold processGroup
  rw [hm]
  dsimp only
  rw [if_pos ⟨hmem, rfl⟩]

theorem processGroup_error_lookup (env : Env) (st : List SubjectRow) (fp nfp : String)
    (stub ow : Bool) (r : SessionRow) (fs : FS)
    (hsm : get_subject_metadata_from_dataframe r.mouse st = none) :
    processGroup env st fp nfp stub ow r fs = ([], .error (.subjectLookupError r.mouse)) := by
  unfold processGroup
  rw [hsm]

theorem runGroups_ok_spec (env : Env) (st : List SubjectRow) (fp nfp : String)
    (stub ow : Bool) :
    ∀ (rows : List SessionRow) (fs : FS) (evs : List BatchEvent) (fs1 : FS),
    runGroups env st fp nfp stub ow rows fs = (evs, .ok fs1) →
    (∀ p ∈ fs, p ∈ fs1) ∧
    ∀ r ∈ rows, outputPath nfp stub r ∈ fs1 ∧
      (get_subject_metadata_from_dataframe r.mouse st).isSome = true := by
  intro rows
  induction rows with
  | nil =>
    intro fs evs fs1 h
    simp only [runGroups, Prod.mk.injEq, Except.ok.injEq] at h
    obtain ⟨-, hfs⟩ := h
    subst hfs
    exact ⟨fun p hp => hp, by simp⟩
  | cons r rest ih =>
    intro fs evs fs1 h
    unfold runGroups at h
    split at h
    next evs0 e heq => simp at h
    next evs0 fsMid heq =>
      simp only [Prod.mk.injEq] at h
      obtain ⟨-, hres⟩ := h
      obtain ⟨hmono1, hout1, hsm1⟩ := processGroup_ok_spec env st fp nfp stub ow r fs evs0 fsMid heq
      have hfull : runGroups env st fp nfp stub ow rest fsMid =
          ((runGroups env st fp nfp stub ow rest fsMid).1, Except.ok fs1) := by
        rw [← hres]
      obtain ⟨hmono2, hrest⟩ := ih fsMid _ _ hfull
      refine ⟨fun p hp => hmono2 p (hmono1 p hp), ?_⟩
      intro r2 hr2
      rcases List.mem_cons.mp hr2 with hhead | htail
      · subst hhead
        exact ⟨hmono2 _ hout1, hsm1⟩
      · exact hrest r2 htail

theorem runGroups_all_skip (env : Env) (st : List SubjectRow) (fp nfp : String)
    (stub : Bool) :
    ∀ (rows : List SessionRow) (fs : FS),
    (∀ r ∈ rows, (get_subject_metadata_from_dataframe r.mouse st).isSome = true ∧
      outputPath nfp stub r ∈ fs) →
    runGroups env st fp nfp stub false rows fs = ([], .ok fs) := by
  intro rows
  induction rows with
  | nil => intro fs _; rfl
  | cons r rest ih =>
    intro fs hall
    have hskip := processGroup_skip env st fp nfp stub r fs
      (hall r (List.mem_cons_self _ _)).1 (hall r (List.mem_cons_self _ _)).2
    unfold runGroups
    rw [hskip]
    dsimp only
    rw [ih fs (fun r2 hr2 => hall r2 (List.mem_cons_of_mem _ hr2))]
    rfl

theorem runGroups_abort_lookup (env : Env) (st : List SubjectRow) (fp nfp : String)
    (stub : Bool) :
    ∀ (rows : List SessionRow) (fs : FS),
    (∀ r ∈ rows, outputPath nfp stub r ∈ fs) →
    (∃ r ∈ rows, get_subject_metadata_from_dataframe r.mouse st = none) →
    ∃ sid, get_subject_metadata_from_dataframe sid st = none ∧
      runGroups env st fp nfp stub false rows fs =
        ([], .error (.subjectLookupError sid)) := by
  intro rows
  induction rows with
  | nil => intro fs _ hex; obtain ⟨r, hr, -⟩ := hex; cases hr
  | cons r rest ih =>
    intro fs hall hex
    cases hsm : get_subject_metadata_from_dataframe r.mouse st with
    | none =>
      refine ⟨r.mouse, hsm, ?_⟩
      unfold runGroups
      rw [processGroup_error_lookup env st fp nfp stub false r fs hsm]
    | some m =>
      have hskip := processGroup_skip env st fp nfp stub r fs
        (by simp [hsm]) (hall r (List.mem_cons_self _ _))
      have hex2 : ∃ r2 ∈ rest, get_subject_metadata_from_dataframe r2.mouse st = none := by
        obtain ⟨r2, hr2, hnone⟩ := hex
        rcases List.mem_cons.mp hr2 with hhead | htail
        · subst hhead; rw [hsm] at hnone; cases hnone
        · exact ⟨r2, htail, hnone⟩
      obtain ⟨sid, hsid, hrun⟩ := ih fs (fun r2 hr2 => hall r2 (List.mem_cons_of_mem _ hr2)) hex2
      refine ⟨sid, hsid, ?_⟩
      unfold runGroups
      rw [hskip]
      dsimp only
      rw [hrun]
      rfl

theorem groupFirstsAux_covers (r : SessionRow) :
    ∀ (rows : List SessionRow) (seen : List (String × String)),
    r ∈ rows → sessionKey r ∉ seen →
    ∃ g ∈ groupFirstsAux rows seen, sessionKey g = sessionKey r := by
  intro rows
  induction rows with
  | nil => intro seen h _; cases h
  | cons r0 rest ih =>
    intro seen hr hseen
    unfold groupFirstsAux
    by_cases hk : sessionKey r0 ∈ seen
    · rw [if_pos hk]
      rcases List.mem_cons.mp hr with hhead | htail
      · subst hhead; exact absurd hk hseen
      · exact ih seen htail hseen
    · rw [if_neg hk]
      by_cases hkey : sessionKey r = sessionKey r0
      · exact ⟨r0, List.mem_cons_self _ _, hkey.symm⟩
      · rcases List.mem_cons.mp hr with hhead | htail
        · subst hhead; exact absurd rfl hkey
        · have hseen2 : sessionKey r ∉ sessionKey r0 :: seen := by
            intro hmem
            rcases List.mem_cons.mp hmem with h1 | h2
            · exact hkey h1
            · exact hseen h2
          obtain ⟨g, hg, hgkey⟩ := ih (sessionKey r0 :: seen) htail hseen2
          exact ⟨g, List.mem_cons_of_mem _ hg, hgkey⟩

theorem groupFirsts_covers (r : SessionRow) (rows : List SessionRow) (hr : r ∈ rows) :
    ∃ g ∈ groupFirsts rows, sessionKey g = sessionKey r :=
  groupFirstsAux_covers r rows [] hr (List.not_mem_nil _)

theorem channelExtract_fi (pd : ProcessedData) (a : DualArgs) (i : ℕ) (c : ChannelExtract)
    (h : channelExtract pd a i = some c) :
    a.indexFields.get? i = some c.ifield ∧
    ∃ s e, lookupField pd.indexFields c.ifield = some (s, e) ∧ c.fi = arange (s - 1) e := by
  simp only [channelExtract, bind, Option.bind_eq_some, Option.pure_def,
    Option.some.injEq] at h
  obtain ⟨bf, hbf, bd, hbd, ifield, hif, idx, hidx, t, ht, raw, hraw, fp, hfp, wl, hwl,
    ind, hind, ttl, httl, hc⟩ := h
  subst hc
  exact ⟨hif, idx.1, idx.2, hidx, rfl⟩

theorem reportStep_no_dualCall (fs : FS) (p : String) (d : DualArgs) :
    BatchEvent.dualCall d ∉ (reportStep fs p).2 := by
  unfold reportStep
  split <;> simp

theorem processGroup_dualCall (env : Env) (st : List SubjectRow) (fp nfp : String)
    (stub ow : Bool) (r : SessionRow) (fs : FS) (d : DualArgs)
    (hd : BatchEvent.dualCall d ∈ (processGroup env st fp nfp stub ow r fs).1) :
    d.ttlStreamNames = ["ttlIn1", "ttlIn2"] ∧ d.samplingFrequency = some 18 := by
  unfold processGroup at hd
  split at hd
  · simp at hd
  next sm hsm =>
    dsimp only at hd
    split at hd
    next hcond => simp at hd
    next hcond =>
      split at hd
      next e heq =>
        simp only [List.mem_singleton, BatchEvent.dualCall.injEq] at hd
        subst hd
        exact ⟨rfl, rfl⟩
      next o heq =>
        rcases List.mem_cons.mp hd with h1 | h2
        · rw [BatchEvent.dualCall.injEq] at h1
          subst h1
          exact ⟨rfl, rfl⟩
        · rcases List.mem_cons.mp h2 with h3 | h4
          · cases h3
          · exact absurd h4 (reportStep_no_dualCall _ _ _)

theorem runGroups_dualCall (env : Env) (st : List SubjectRow) (fp nfp : String)
    (stub ow : Bool) :
    ∀ (rows : List SessionRow) (fs : FS) (d : DualArgs),
    BatchEvent.dualCall d ∈ (runGroups env st fp nfp stub ow rows fs).1 →
    d.ttlStreamNames = ["ttlIn1", "ttlIn2"] ∧ d.samplingFrequency = some 18 := by
  intro rows
  induction rows with
  | nil => intro fs d hd; simp [runGroups] at hd
  | cons r rest ih =>
    intro fs d hd
    unfold runGroups at hd
    split at hd
    next evs0 e heq =>
      apply processGroup_dualCall env st fp nfp stub ow r fs d
      rw [heq]
      exact hd
    next evs0 fsMid heq =>
      dsimp only at hd
      rcases List.mem_append.mp hd with h1 | h2
      · apply processGroup_dualCall env st fp nfp stub ow r fs d
        rw [heq]
        exact h1
      · exact ih fsMid d h2

theorem dual_ok_channels (env : Env) (a : DualArgs) (o : DualOutcome)
    (h : (dual_wavelength_session_to_nwb env a).2 = .ok o) :
    ∃ c1 c2, o.nwbfile.channels = [c1, c2] ∧
      c1.sourceData.behavior.isSome = true ∧ c2.sourceData.behavior = none := by
  unfold dual_wavelength_session_to_nwb at h
  split at h
  · simp at h
  next pd hpd =>
  split at h
  · simp at h
  next x hx =>
  split at h
  next eff1 e heq1 => simp at h
  next eff1 o1 heq1 =>
  split at h
  next eff2 e heq2 => simp at h
  next eff2 o2 heq2 =>
  dsimp only at h
  rw [Except.ok.injEq] at h
  subst h
  obtain ⟨pd1, se1, fib1, hpd1, hidx1, hfib1, hsd1, hco1, hw1, hnw1⟩ :=
    single_ok_spec env (dualChannel1Args a x) o1 (by rw [heq1])
  obtain ⟨pd2, se2, fib2, hpd2, hidx2, hfib2, hsd2, hco2, hw2, hnw2⟩ :=
    single_ok_spec env (dualChannel2Args a x o1.nwbfile) o2 (by rw [heq2])
  dsimp only [dualChannel1Args] at hnw1
  dsimp only [dualChannel2Args] at hnw2
  show ∃ c1 c2, o2.nwbfile.channels = [c1, c2] ∧
    c1.sourceData.behavior.isSome = true ∧ c2.sourceData.behavior = none
  rw [hnw2, hnw1]
  simp only [addToNwbfile, createNwbfile, List.singleton_append]
  refine ⟨_, _, rfl, ?_, ?_⟩
  · simp [buildSourceData]
  · simp [buildSourceData]

/-! ## Concrete fixtures

A small concrete world mirroring the `__main__` parameter blocks of the
scripts, used to instantiate the theorems below on closed inputs. -/

def pdFix : ProcessedData :=
  { indexFields := [("ACh_idx", (3, 5)), ("DA_idx", (4, 7))]
    behaviorFields := [("behav_ACh", ⟨[0]⟩), ("behav_DA", ⟨[1]⟩)] }

def envFix : Env :=
  { processedData := [("D:/UG27/240214/UG27_240214.mat", pdFix)]
    fiberTables := [("D:/UG27/fiber_table.xlsx", [⟨true⟩, ⟨false⟩])] }

def singleArgsFix : SingleArgs :=
  { rawImagingFilePath := "D:/UG27/240214/raw/data11.cxd"
    processedDataFilePath := "D:/UG27/240214/UG27_240214.mat"
    fiberPhotometryField := "ACh"
    indexField := "ACh_idx"
    fiberLocationsFilePath := "D:/UG27/fiber_table.xlsx"
    excitationWavelengthInNm := 470
    indicator := "ACh3.0"
    ttlFilePath := "D:/UG27/240214/raw/ttl.mat"
    ttlStreamName := "ttlIn1"
    behaviorField := some "behav_ACh"
    frameIndices := some [0, 1]
    samplingFrequency := some 18 }

def dualArgsFix : DualArgs :=
  { rawImagingFilePaths := ["D:/UG27/240214/raw/data11.cxd", "D:/UG27/240214/raw/data89.cxd"]
    processedDataFilePath := "D:/UG27/240214/UG27_240214.mat"
    fiberPhotometryFields := ["ACh", "DA"]
    behaviorFields := ["behav_ACh", "behav_DA"]
    indexFields := ["ACh_idx", "DA_idx"]
    fiberLocationsFilePath := "D:/UG27/fiber_table.xlsx"
    excitationWavelengthsInNm := [470, 570]
    indicators := ["ACh3.0", "rDA3m"]
    ttlFilePath := "D:/UG27/240214/raw/ttl.mat"
    ttlStreamNames := ["ttlIn1", "ttlIn2"]
    nwbfilePath := "D:/NWB/UG27_240214.nwb"
    samplingFrequency := some 18 }

def xDFix : DualExtract :=
  { ch1 := { raw := "D:/UG27/240214/raw/data11.cxd", fp := "ACh", bf := "behav_ACh"
             ifield := "ACh_idx", wl := 470, ind := "ACh3.0", ttl := "ttlIn1"
             fi := [2, 3, 4], t := 0 }
    ch2 := { raw := "D:/UG27/240214/raw/data89.cxd", fp := "DA", bf := "behav_DA"
             ifield := "DA_idx", wl := 570, ind := "rDA3m", ttl := "ttlIn2"
             fi := [3, 4, 5, 6], t := 1 } }

def rowFix : SessionRow :=
  { mouse := "UG27", experimentDirectory := "240214"
    rawImagingFileGreen := "data11.cxd", rawImagingFileRed := "data89.cxd"
    processedDataFile := "UG27_240214.mat"
    photometryFieldGreen := "ACh", photometryFieldRed := "DA"
    behaviorFieldGreen := "behav_ACh", behaviorFieldRed := "behav_DA"
    indexFieldGreen := "ACh_idx", indexFieldRed := "DA_idx"
    wavelengthGreen := 470, wavelengthRed := 570
    sensorGreen := "ACh3.0", sensorRed := "rDA3m"
    rawBehaviorFile := "ttl.mat" }

def miceFix : List SubjectRow := [{ subjectId := "UG27", dateOfBirth := "2023-01-01" }]

/-! ## Claims -/

/-- C1: for an index-field pair `[s, e]` with `s ≥ 1` (and `s - 1 ≤ e`, i.e.
a well-formed pair), the derived frame-index window is the zero-based
half-open integer range `[s-1, e)` and its length is `e - s + 1`; and this
one-based-to-zero-based conversion is what every index-field read site
yields: the single-wavelength assembler's Imaging source configuration
(single script lines 86-87) and both channels of the dual-wavelength
assembler (dual script lines 77 and 80). -/
theorem C1_frame_index_window (s e x : ℤ) (env : Env) (a : SingleArgs)
    (pd : ProcessedData) (aD : DualArgs) (xD : DualExtract)
    (hs : 1 ≤ s) (hse : s - 1 ≤ e) :
    (x ∈ arange (s - 1) e ↔ s - 1 ≤ x ∧ x < e) ∧
    ((arange (s - 1) e).length : ℤ) = e - s + 1 ∧
    (read_mat env a.processedDataFilePath = some pd →
      lookupField pd.indexFields a.indexField = some (s, e) →
      exceptIsOk (single_wavelength_session_to_nwb env a).2 = true →
      imagingFrameIndicesOf (single_wavelength_session_to_nwb env a).2 =
        some (arange (s - 1) e)) ∧
    (dualExtract pd aD = some xD →
      lookupField pd.indexFields xD.ch1.ifield = some (s, e) →
      xD.ch1.fi = arange (s - 1) e) ∧
    (dualExtract pd aD = some xD →
      lookupField pd.indexFields xD.ch2.ifield = some (s, e) →
      xD.ch2.fi = arange (s - 1) e) := by
  refine ⟨mem_arange, ?_, ?_, ?_, ?_⟩
  · rw [length_arange]
    omega
  · intro hpd hidx hok
    cases hres : (single_wavelength_session_to_nwb env a).2 with
    | error e0 => rw [hres] at hok; simp [exceptIsOk] at hok
    | ok o =>
      obtain ⟨pd2, se2, fib2, hpd2, hidx2, hfib2, hsd, -, -, -⟩ :=
        single_ok_spec env a o hres
      obtain rfl : pd2 = pd := Option.some.inj (hpd2.symm.trans hpd)
      obtain rfl : se2 = (s, e) := Option.some.inj (hidx2.symm.trans hidx)
      dsimp only [imagingFrameIndicesOf]
      rw [hsd]
      rfl
  · intro hx hidx
    obtain ⟨h1, -⟩ := dualExtract_channels pd aD xD hx
    obtain ⟨-, s2, e2, hidx2, hfi⟩ := channelExtract_fi pd aD 0 xD.ch1 h1
    obtain heq : (s2, e2) = (s, e) := Option.some.inj (hidx2.symm.trans hidx)
    have hs2 : s2 = s := congrArg Prod.fst heq
    have he2 : e2 = e := congrArg Prod.snd heq
    subst hs2
    subst he2
    exact hfi
  · intro hx hidx
    obtain ⟨-, h2⟩ := dualExtract_channels pd aD xD hx
    obtain ⟨-, s2, e2, hidx2, hfi⟩ := channelExtract_fi pd aD 1 xD.ch2 h2
    obtain heq : (s2, e2) = (s, e) := Option.some.inj (hidx2.symm.trans hidx)
    have hs2 : s2 = s := congrArg Prod.fst heq
    have he2 : e2 = e := congrArg Prod.snd heq
    subst hs2
    subst he2
    exact hfi

/-- Witness for C1 at `[s, e] = [3, 5]` (and `[4, 7]` for the second dual
channel), on the concrete fixture world. -/
theorem C1_witness :
    ((1 : ℤ) ≤ 3 ∧ (3 : ℤ) - 1 ≤ 5) ∧
    ((2 : ℤ) ∈ arange (3 - 1) 5 ↔ (3 : ℤ) - 1 ≤ 2 ∧ (2 : ℤ) < 5) ∧
    ((arange (3 - 1) 5).length : ℤ) = 5 - 3 + 1 ∧
    imagingFrameIndicesOf (single_wavelength_session_to_nwb envFix singleArgsFix).2 =
      some (arange (3 - 1) 5) ∧
    xDFix.ch1.fi = arange (3 - 1) 5 ∧
    xDFix.ch2.fi = arange (4 - 1) 7 := by
  have h1 := C1_frame_index_window 3 5 2 envFix singleArgsFix pdFix dualArgsFix xDFix
    (by decide) (by decide)
  have h2 := C1_frame_index_window 4 7 2 envFix singleArgsFix pdFix dualArgsFix xDFix
    (by decide) (by decide)
  refine ⟨⟨by decide, by decide⟩, h1.1, h1.2.1, ?_, ?_, ?_⟩
  · exact h1.2.2.1 (by decide) (by decide) (by decide)
  · exact h1.2.2.2.1 (by decide) (by decide)
  · exact h2.2.2.2.2 (by decide) (by decide)

/-- C2 (code evaluated at the failing input): calling the single-wavelength
assembler with the caller-supplied window `frame_indices = [0, 1]` while the
struct's index field holds `[3, 5]` produces an Imaging source configuration
whose window is `[2, 3, 4]` — re-derived from the struct — not the supplied
`[0, 1]`: lines 86-87 rebind the `frame_indices` parameter before it is ever
used, so a supplied window is silently ignored. -/
theorem C2_supplied_frame_indices_ignored :
    singleArgsFix.frameIndices = some [0, 1] ∧
    imagingFrameIndicesOf (single_wavelength_session_to_nwb envFix singleArgsFix).2 =
      some [2, 3, 4] ∧
    some ([2, 3, 4] : List ℤ) ≠ some [0, 1] :=
  ⟨rfl, by decide, by decide⟩

/-- C3: when no session-table row's subject is among the requested subject
identifiers, the filtered table is empty and the batch driver fails with the
configuration error of lines 50-52 (raised as `ValueError`, the
specification's `ConfigurationError` taxon); the event trace is empty, so
nothing was converted and nothing was written. -/
theorem C3_disjoint_subjects_fail_eagerly (env : Env)
    (data_table : List SessionRow) (subjects_table : List SubjectRow)
    (folder_path nwbfile_folder_path : String) (subject_ids : List String)
    (stub_test overwrite : Bool) (fs : FS)
    (hdisj : ∀ r ∈ data_table, subject_ids.contains r.mouse = false) :
    convert_all_dual_wavelength_sessions env data_table subjects_table folder_path
      nwbfile_folder_path subject_ids stub_test overwrite fs =
      ([], .error (.configurationError subject_ids)) := by
  have hfilter : data_table.filter (fun r => subject_ids.contains r.mouse) = [] :=
    List.filter_eq_nil_iff.mpr (fun r hr => by rw [hdisj r hr]; exact Bool.false_ne_true)
  unfold convert_all_dual_wavelength_sessions
  rw [hfilter]
  rfl

/-- Witness for C3: one session row for subject "UG27", requested subjects
`["XX"]`. -/
theorem C3_witness :
    (∀ r ∈ [rowFix], (["XX"] : List String).contains r.mouse = false) ∧
    convert_all_dual_wavelength_sessions envFix [rowFix] miceFix "D:" "D:/NWB" ["XX"]
      false false [] = ([], .error (.configurationError ["XX"])) :=
  ⟨by decide,
   C3_disjoint_subjects_fail_eagerly envFix [rowFix] miceFix "D:" "D:/NWB" ["XX"]
     false false [] (by decide)⟩

/-- C4: for an excitation wavelength outside {470, 405, 415, 570}, the
single-wavelength assembler fails with the line-178 dict `KeyError` (a
`LookupError` subclass), and its effect trace holds no handle creation, no
handle extension and no file write — only the two reads and the converter
construction that precede the lookup; in particular neither
`create_nwbfile` nor `add_to_nwbfile` (lines 197-205) is reached. -/
theorem C4_unknown_wavelength_fails_before_handle (env : Env) (a : SingleArgs)
    (pd : ProcessedData) (se : ℤ × ℤ) (fibers : List FiberEntry)
    (hpd : read_mat env a.processedDataFilePath = some pd)
    (hidx : lookupField pd.indexFields a.indexField = some se)
    (hfib : get_fiber_locations env a.fiberLocationsFilePath = some fibers)
    (hw : a.excitationWavelengthInNm ∉ ([470, 405, 415, 570] : List ℤ)) :
    (single_wavelength_session_to_nwb env a).2 =
      .error (.wavelengthKeyError a.excitationWavelengthInNm) ∧
    handleOrWriteEffects (single_wavelength_session_to_nwb env a).1 = [] := by
  have key := single_unknown_wavelength env a pd se fibers hpd hidx hfib hw
  rw [key]
  exact ⟨rfl, rfl⟩

def singleArgsC4 : SingleArgs := { singleArgsFix with excitationWavelengthInNm := 500 }

/-- Witness for C4 at wavelength 500 nm. -/
theorem C4_witness :
    ((500 : ℤ) ∉ ([470, 405, 415, 570] : List ℤ)) ∧
    (single_wavelength_session_to_nwb envFix singleArgsC4).2 =
      .error (.wavelengthKeyError 500) ∧
    handleOrWriteEffects (single_wavelength_session_to_nwb envFix singleArgsC4).1 = [] := by
  have h := C4_unknown_wavelength_fails_before_handle envFix singleArgsC4 pdFix (3, 5)
    [⟨true⟩, ⟨false⟩] (by decide) (by decide) (by decide) (by decide)
  exact ⟨by decide, h.1, h.2⟩

/-- C5: the wavelength-to-series-name lookup is exactly the fixed
four-entry table 470 ↦ "Green", 405 ↦ "GreenIsosbestic",
415 ↦ "GreenIsosbestic", 570 ↦ "Red"; 405 and 415 map identically, and on
the four defined wavelengths every result is one of the three suffixes
listed. -/
theorem C5_wavelength_suffix_table :
    excitation_wavelength_to_photon_series_name 470 = some "Green" ∧
    excitation_wavelength_to_photon_series_name 405 = some "GreenIsosbestic" ∧
    excitation_wavelength_to_photon_series_name 415 = some "GreenIsosbestic" ∧
    excitation_wavelength_to_photon_series_name 570 = some "Red" ∧
    excitation_wavelength_to_photon_series_name 405 =
      excitation_wavelength_to_photon_series_name 415 := by
  decide

/-- Checks that a successful dual-wavelength run produced a file holding
exactly two channels, with behavior-derived data in channel 1 only. -/
def dualBehaviorChannel1Only : Except DualError DualOutcome → Bool
  | .error _ => false
  | .ok o =>
    match o.nwbfile.channels with
    | [c1, c2] => c1.sourceData.behavior.isSome && c2.sourceData.behavior.isNone
    | _ => false

/-- Checks that a successful single-wavelength run included a Behavior
stream (in both the source configuration and the conversion options)
exactly when a behavior field was supplied. -/
def singleBehaviorMatches (a : SingleArgs) (res : Except SingleError SingleOutcome) : Bool :=
  match res with
  | .error _ => false
  | .ok o =>
    (o.sourceData.behavior.isSome == a.behaviorField.isSome) &&
    (o.conversionOptions.behaviorStubTest.isSome == a.behaviorField.isSome)

/-- C6: the dual assembler's channel-2 call carries no behavior field (it is
omitted at lines 105-123); the single assembler includes a Behavior stream
in its conversion configuration iff a behavior field name is supplied
(lines 130-134); hence a successfully produced dual-wavelength file holds
behavior-derived data from channel 1 only. -/
theorem C6_behavior_from_channel1_only (env : Env) (aD : DualArgs) (x : DualExtract)
    (hnd : NWBHandle) (aS : SingleArgs)
    (hokS : exceptIsOk (single_wavelength_session_to_nwb env aS).2 = true)
    (hokD : exceptIsOk (dual_wavelength_session_to_nwb env aD).2 = true) :
    (dualChannel2Args aD x hnd).behaviorField = none ∧
    singleBehaviorMatches aS (single_wavelength_session_to_nwb env aS).2 = true ∧
    dualBehaviorChannel1Only (dual_wavelength_session_to_nwb env aD).2 = true := by
  refine ⟨rfl, ?_, ?_⟩
  · cases hres : (single_wavelength_session_to_nwb env aS).2 with
    | error e => rw [hres] at hokS; simp [exceptIsOk] at hokS
    | ok o =>
      obtain ⟨pd, se, fib, -, -, -, hsd, hco, -, -⟩ := single_ok_spec env aS o hres
      simp only [singleBehaviorMatches, hsd, hco, buildSourceData, buildConversionOptions]
      rcases hbf : aS.behaviorField with _ | bf <;> simp [hbf]
  · cases hres : (dual_wavelength_session_to_nwb env aD).2 with
    | error e => rw [hres] at hokD; simp [exceptIsOk] at hokD
    | ok o =>
      obtain ⟨c1, c2, hch, hb1, hb2⟩ := dual_ok_channels env aD o hres
      simp [dualBehaviorChannel1Only, hch, hb1, hb2]

/-- Witness for C6 on the concrete fixture world (where both the single and
the dual runs succeed). -/
theorem C6_witness :
    (dualChannel2Args dualArgsFix xDFix ⟨[]⟩).behaviorField = none ∧
    singleBehaviorMatches singleArgsFix
      (single_wavelength_session_to_nwb envFix singleArgsFix).2 = true ∧
    dualBehaviorChannel1Only (dual_wavelength_session_to_nwb envFix dualArgsFix).2 = true :=
  C6_behavior_from_channel1_only envFix dualArgsFix xDFix ⟨[]⟩ singleArgsFix
    (by decide) (by decide)

/-- C7: with `overwrite = False`, a successful batch run leaves every
group's output file in place, so running the batch driver again on the same
inputs is a complete no-op — it performs no conversion call and no write
(empty event trace) and leaves the filesystem unchanged: every group is
skipped at the lines 88-90 check before any work. -/
theorem C7_second_run_is_noop (env : Env) (data_table : List SessionRow)
    (subjects_table : List SubjectRow) (folder_path nwbfile_folder_path : String)
    (subject_ids : List String) (stub_test : Bool) (fs fs1 : FS) (evs : List BatchEvent)
    (h : convert_all_dual_wavelength_sessions env data_table subjects_table folder_path
        nwbfile_folder_path subject_ids stub_test false fs = (evs, .ok fs1)) :
    convert_all_dual_wavelength_sessions env data_table subjects_table folder_path
      nwbfile_folder_path subject_ids stub_test false fs1 = ([], .ok fs1) := by
  unfold convert_all_dual_wavelength_sessions at h ⊢
  by_cases hemp : (data_table.filter (fun r => subject_ids.contains r.mouse)).isEmpty = true
  · rw [if_pos hemp] at h
    simp at h
  · rw [if_neg hemp] at h ⊢
    obtain ⟨hmono, hall⟩ := runGroups_ok_spec env subjects_table folder_path
      nwbfile_folder_path stub_test false _ fs evs fs1 h
    exact runGroups_all_skip env subjects_table folder_path nwbfile_folder_path stub_test
      _ fs1 (fun r hr => ⟨(hall r hr).2, (hall r hr).1⟩)

def fsC7 : FS := ["D:/NWB/UG27_240214.nwb"]

/-- Witness for C7: a first run in which the single group's output already
exists is itself a no-op, and the theorem yields the same for the rerun. -/
theorem C7_witness :
    convert_all_dual_wavelength_sessions envFix [rowFix] miceFix "D:" "D:/NWB" ["UG27"]
      false false fsC7 = ([], .ok fsC7) :=
  C7_second_run_is_noop envFix [rowFix] miceFix "D:" "D:/NWB" ["UG27"] false fsC7 fsC7 []
    (by rfl)

/-- C8: the inspector/report step writes the QA report only when no file
exists at the derived report path; when the report already exists the step
leaves the filesystem unchanged and performs no write at all, so the
existing file is never overwritten, no matter how many times the step
runs. -/
theorem C8_report_never_overwritten (fs : FS) (p : String) :
    (p ∈ fs → reportStep fs p = (fs, [])) ∧
    (p ∉ fs → reportStep fs p = (p :: fs, [.writeReport p])) := by
  constructor <;> intro h <;> simp [reportStep, h]

/-- Witness for C8 on a filesystem already holding the report. -/
theorem C8_witness :
    ("D:/NWB/UG27-240214_nwbinspector_result.txt" ∈
      (["D:/NWB/UG27-240214_nwbinspector_result.txt"] : FS)) ∧
    reportStep ["D:/NWB/UG27-240214_nwbinspector_result.txt"]
      "D:/NWB/UG27-240214_nwbinspector_result.txt" =
      (["D:/NWB/UG27-240214_nwbinspector_result.txt"], []) :=
  ⟨by decide,
   (C8_report_never_overwritten ["D:/NWB/UG27-240214_nwbinspector_result.txt"]
     "D:/NWB/UG27-240214_nwbinspector_result.txt").1 (by decide)⟩

/-- True when a batch run aborted with a subject-lookup failure having
performed no conversion call and no write. -/
def abortsWithSubjectLookupError (res : List BatchEvent × Except DriverError FS) : Bool :=
  match res with
  | ([], .error (.subjectLookupError _)) => true
  | _ => false

/-- C9: the subject-metadata lookup (line 69) runs before the skip-if-exists
check (line 88), so when a requested session's subject is absent from the
"Mice" sheet the batch aborts with the lookup failure — with no conversion
and no write — even when every group's output file already exists and
`overwrite` is false: the existing-output skip never shields a missing
subject record. -/
theorem C9_lookup_precedes_skip (env : Env) (data_table : List SessionRow)
    (subjects_table : List SubjectRow) (folder_path nwbfile_folder_path : String)
    (subject_ids : List String) (stub_test : Bool) (fs : FS) (r : SessionRow)
    (hr : r ∈ data_table) (hin : subject_ids.contains r.mouse = true)
    (hmiss : get_subject_metadata_from_dataframe r.mouse subjects_table = none)
    (hall : ∀ g ∈ groupFirsts (data_table.filter (fun r2 => subject_ids.contains r2.mouse)),
      outputPath nwbfile_folder_path stub_test g ∈ fs) :
    abortsWithSubjectLookupError
      (convert_all_dual_wavelength_sessions env data_table subjects_table folder_path
        nwbfile_folder_path subject_ids stub_test false fs) = true := by
  have hrf : r ∈ data_table.filter (fun r2 => subject_ids.contains r2.mouse) :=
    List.mem_filter.mpr ⟨hr, hin⟩
  have hne : data_table.filter (fun r2 => subject_ids.contains r2.mouse) ≠ [] :=
    List.ne_nil_of_mem hrf
  obtain ⟨g, hg, hkey⟩ := groupFirsts_covers r _ hrf
  have hgm : g.mouse = r.mouse := congrArg Prod.fst hkey
  obtain ⟨sid, hsid, hrun⟩ := runGroups_abort_lookup env subjects_table folder_path
    nwbfile_folder_path stub_test _ fs hall ⟨g, hg, by rw [hgm]; exact hmiss⟩
  unfold convert_all_dual_wavelength_sessions
  rw [if_neg (by rw [List.isEmpty_eq_false.mpr hne]; exact Bool.false_ne_true)]
  rw [hrun]
  rfl

def fsC9 : FS := ["D:/NWB/UG27_240214.nwb"]

/-- Witness for C9: the subject table is empty, the group's output file
exists, overwrite is off — the run still aborts on the lookup. -/
theorem C9_witness :
    abortsWithSubjectLookupError
      (convert_all_dual_wavelength_sessions envFix [rowFix] [] "D:" "D:/NWB" ["UG27"]
        false false fsC9) = true :=
  C9_lookup_precedes_skip envFix [rowFix] [] "D:" "D:/NWB" ["UG27"] false fsC9 rowFix
    (by decide) (by decide) (by rfl) (by decide)

/-- C10: every dual-assembler invocation the batch driver performs carries
the fixed constants `ttl_stream_names = ["ttlIn1", "ttlIn2"]` (line 84) and
`sampling_frequency = 18` (line 106), independent of the session table. -/
theorem C10_fixed_ttl_and_sampling (env : Env) (data_table : List SessionRow)
    (subjects_table : List SubjectRow) (folder_path nwbfile_folder_path : String)
    (subject_ids : List String) (stub_test overwrite : Bool) (fs : FS) (d : DualArgs)
    (hd : BatchEvent.dualCall d ∈
      (convert_all_dual_wavelength_sessions env data_table subjects_table folder_path
        nwbfile_folder_path subject_ids stub_test overwrite fs).1) :
    d.ttlStreamNames = ["ttlIn1", "ttlIn2"] ∧ d.samplingFrequency = some 18 := by
  unfold convert_all_dual_wavelength_sessions at hd
  by_cases hemp : (data_table.filter (fun r => subject_ids.contains r.mouse)).isEmpty = true
  · rw [if_pos hemp] at hd
    simp at hd
  · rw [if_neg hemp] at hd
    exact runGroups_dualCall env subjects_table folder_path nwbfile_folder_path
      stub_test overwrite _ fs d hd

def envEmpty : Env := ⟨[], []⟩

def dualArgsC10 : DualArgs :=
  groupDualArgs "D:" false { subjectId := "UG27", dateOfBirth := "2023-01-01" }
    (outputPath "D:/NWB" false rowFix) rowFix

/-- Witness for C10: a run on an empty collaborator world still records the
dual-assembler call (the conversion then fails on the missing file), and
that call carries the two constants. -/
theorem C10_witness :
    dualArgsC10.ttlStreamNames = ["ttlIn1", "ttlIn2"] ∧
    dualArgsC10.samplingFrequency = some 18 :=
  C10_fixed_ttl_and_sampling envEmpty [rowFix] miceFix "D:" "D:/NWB" ["UG27"] false false
    [] dualArgsC10 (by decide)

end HoweLab








